import Mathlib

/-!
Shallow embedding of the scanner layer of `sonnylabs/helper.py`.

Python dictionaries appearing in the interface are modelled as association
lists; Python floats as rationals; the collaborator (`client.analyze_text`)
as a function from the analyzed text and scan type to `Option AnalyzeResponse`,
where `none` models a raised exception.  Every scanner returns, next to its
result object, the list of `(text, scan_type)` calls it issued to the
collaborator, so that "the collaborator is never invoked" is an assertion
about that list being empty.
-/

namespace SonnyLabs

/-- Metadata dictionaries (`meta`) are modelled as string-keyed association lists. -/
abbrev MetaDict := List (String × String)

/-- One finding record of the collaborator `analysis` list.  The source reads
`type` and `name` with `.get` (absence allowed, yielding `None`) and `result`
with subscripting (absence raises `KeyError`), hence all three are optional. -/
structure AnalysisItem where
  type : Option String
  name : Option String
  result : Option ℚ
deriving DecidableEq

/-- The response dictionary of the collaborator: `success` flag, optional `tag`
(read with `.get` and a default), and the `analysis` list (read with
`.get("analysis", [])`, so a missing list is identified with the empty one). -/
structure AnalyzeResponse where
  success : Bool
  tag : Option String
  analysis : List AnalysisItem
deriving DecidableEq

/-- The collaborator: `client.analyze_text(text, scan_type)`.  A `none` result
models the call raising an exception. -/
abbrev Client := String → String → Option AnalyzeResponse

/-- Mirror of the `ScanVerdict` dataclass. -/
structure ScanVerdict where
  is_safe : Bool
  score : ℚ
  scan_type : String
  tag : String
  meta : MetaDict
  raw_analysis : List AnalysisItem
deriving DecidableEq

/-- Mirror of the policy dictionary: the keys the source ever reads. -/
structure Policy where
  threshold : Option ℚ
  max_chunks_to_scan : Option Nat
deriving DecidableEq

/-- The source line `threshold = (policy or \x7b\x7d).get("threshold", 0.65)`. -/
def effThreshold (policy : Option Policy) : ℚ :=
  ((policy.getD ⟨none, none⟩).threshold).getD (13 / 20)

/-- The filter of the score-extraction generator:
`item.get("type") == "score" and item.get("name") == "prompt_injection"`. -/
def isPIScore (item : AnalysisItem) : Bool :=
  item.type == some "score" && item.name == some "prompt_injection"

/-- The expression `next((item["result"] for item in ... if ...), 0.0)`:
the `result` of the first matching finding, `0.0` when none matches, and
`none` when the first matching finding has no `result` key (`KeyError`,
which the surrounding `try` converts into an error verdict). -/
def piScore (analysis : List AnalysisItem) : Option ℚ :=
  match analysis.find? isPIScore with
  | none => some 0
  | some item => item.result

/-- Mirror of `scan_text`.  Returns the verdict together with the list of
collaborator calls made. -/
def scan_text (text : String) (client : Client) (scan_type : String)
    (policy : Option Policy) (meta : Option MetaDict) :
    ScanVerdict × List (String × String) :=
  if text = "" then
    (⟨true, 0, scan_type, "empty_input", meta.getD [], []⟩, [])
  else
    let threshold := effThreshold policy
    match client text scan_type with
    | none =>
        (⟨false, 1, scan_type, "error", meta.getD [], []⟩, [(text, scan_type)])
    | some result =>
        if result.success = false then
          (⟨false, 1, scan_type, result.tag.getD "unknown", meta.getD [], []⟩,
           [(text, scan_type)])
        else
          match piScore result.analysis with
          | none =>
              (⟨false, 1, scan_type, "error", meta.getD [], []⟩, [(text, scan_type)])
          | some score =>
              (⟨decide (score < threshold), score, scan_type, result.tag.getD "",
                meta.getD [], result.analysis⟩,
               [(text, scan_type)])

/-- One `\x7brole, content\x7d` chat message; both keys are read with `.get`. -/
structure Message where
  role : Option String
  content : Option String
deriving DecidableEq

/-- The Python operation `"\n".join`. -/
def joinLines : List String → String
  | [] => ""
  | [x] => x
  | x :: y :: rest => x ++ "\n" ++ joinLines (y :: rest)

/-- The `texted_content` expression of `scan_messages`. -/
def renderMessages (messages : List Message) : String :=
  joinLines (messages.map (fun msg =>
    "[" ++ msg.role.getD "unknown" ++ "]: " ++ msg.content.getD ""))

/-- Mirror of `scan_messages` (the source inlines the analysis logic rather
than calling `scan_text`; so does this embedding). -/
def scan_messages (messages : List Message) (client : Client) (scan_type : String)
    (policy : Option Policy) (meta : Option MetaDict) :
    ScanVerdict × List (String × String) :=
  if messages = [] then
    (⟨true, 0, scan_type, "empty_messages", meta.getD [], []⟩, [])
  else
    let threshold := effThreshold policy
    let texted_content := renderMessages messages
    match client texted_content scan_type with
    | none =>
        (⟨false, 1, scan_type, "error", meta.getD [], []⟩, [(texted_content, scan_type)])
    | some result =>
        if result.success = false then
          (⟨false, 1, scan_type, result.tag.getD "unknown", meta.getD [], []⟩,
           [(texted_content, scan_type)])
        else
          match piScore result.analysis with
          | none =>
              (⟨false, 1, scan_type, "error", meta.getD [], []⟩,
               [(texted_content, scan_type)])
          | some score =>
              (⟨decide (score < threshold), score, scan_type, result.tag.getD "",
                meta.getD [], result.analysis⟩,
               [(texted_content, scan_type)])

/-- A RAG chunk: either a plain string or a dictionary, of which the source
reads the `text` and `content` keys and otherwise falls back to `str(chunk)`
(modelled by the `strRepr` component). -/
inductive Chunk where
  | str (s : String)
  | dict (text : Option String) (content : Option String) (strRepr : String)
deriving DecidableEq

/-- The expression `chunk.get("text") or chunk.get("content") or str(chunk)`:
the Python `or` skips falsy values, i.e. both a missing key and an empty string. -/
def chunkText : Chunk → String
  | .str s => s
  | .dict text content strRepr =>
      if text.getD "" ≠ "" then text.getD ""
      else if content.getD "" ≠ "" then content.getD ""
      else strRepr

/-- The per-chunk record `\x7b"text": ..., "index": i, "score": ..., "original": ...\x7d`,
with the extra `"reason"` key carried by flagged chunks. -/
structure ChunkData where
  text : String
  index : Nat
  score : ℚ
  original : Chunk
  reason : Option String
deriving DecidableEq

/-- The dict-merge `\x7b**m, k: v\x7d` on a string-valued metadata dict. -/
def dictInsert (m : MetaDict) (k v : String) : MetaDict :=
  m.filter (fun p => p.1 != k) ++ [(k, v)]

/-- Mirror of the `RagScanResult` dataclass. -/
structure RagScanResult where
  query : String
  total_chunks : Nat
  safe_chunks : List ChunkData
  flagged_chunks : List ChunkData
  is_safe : Bool
  verdict_per_chunk : List ScanVerdict
deriving DecidableEq

/-- The `for i, chunk in enumerate(chunks[:limit])` loop of `scan_rag_chunks`:
accumulates `(safe_chunks, flagged_chunks, verdicts, call log)` in order. -/
def scanChunksLoop (client : Client) (threshold : ℚ) (m : MetaDict) :
    Nat → List Chunk →
    List ChunkData × List ChunkData × List ScanVerdict × List (String × String)
  | _, [] => ([], [], [], [])
  | i, chunk :: rest =>
      let ct := chunkText chunk
      let scanned := scan_text ct client "input" (some ⟨some threshold, none⟩)
        (some (dictInsert m "chunk_index" (toString i)))
      let verdict := scanned.1
      let tail := scanChunksLoop client threshold m (i + 1) rest
      if verdict.is_safe then
        (⟨ct, i, verdict.score, chunk, none⟩ :: tail.1, tail.2.1,
         verdict :: tail.2.2.1, scanned.2 ++ tail.2.2.2)
      else
        (tail.1, ⟨ct, i, verdict.score, chunk, some "flagged"⟩ :: tail.2.1,
         verdict :: tail.2.2.1, scanned.2 ++ tail.2.2.2)

/-- Mirror of `scan_rag_chunks`. -/
def scan_rag_chunks (query : String) (chunks : List Chunk) (client : Client)
    (policy : Option Policy) (meta : Option MetaDict) :
    RagScanResult × List (String × String) :=
  if chunks = [] then
    (⟨query, 0, [], [], true, []⟩, [])
  else
    let pol := policy.getD ⟨none, none⟩
    let m := meta.getD []
    let threshold := pol.threshold.getD (13 / 20)
    let limit := pol.max_chunks_to_scan.getD chunks.length
    let loop := scanChunksLoop client threshold m 0 (chunks.take limit)
    let queryScan := scan_text query client "input" (some ⟨some threshold, none⟩) none
    (⟨query, chunks.length, loop.1, loop.2.1,
      queryScan.1.is_safe && (loop.2.1.length == 0),
      queryScan.1 :: loop.2.2.1⟩,
     loop.2.2.2 ++ queryScan.2)

/-- A tool schema: either a free-text description or a structured schema
(modelled, like `tool_args`, as a string-valued dictionary). -/
inductive ToolSchema where
  | text (s : String)
  | structured (fields : List (String × String))
deriving DecidableEq

/-- Rendering of a string-valued dict as Python `str()` displays it (the entries). -/
def pyDictEntries : List (String × String) → String
  | [] => ""
  | [(k, v)] => "\x27" ++ k ++ "\x27: \x27" ++ v ++ "\x27"
  | (k, v) :: e :: rest =>
      "\x27" ++ k ++ "\x27: \x27" ++ v ++ "\x27, " ++ pyDictEntries (e :: rest)

/-- Rendering of a string-valued dict as Python `str()` displays it, braces included. -/
def pyDictStr (d : List (String × String)) : String :=
  "\x7b" ++ pyDictEntries d ++ "\x7d"

/-- Truthiness of `tool_schema` in `if tool_schema:` — `None`, the empty
string and the empty dict are all falsy. -/
def schemaTruthy : Option ToolSchema → Bool
  | none => false
  | some (.text s) => s != ""
  | some (.structured fields) => fields != []

/-- The f-string rendering of `tool_schema`. -/
def schemaRendered : Option ToolSchema → String
  | none => "None"
  | some (.text s) => s
  | some (.structured fields) => pyDictStr fields

/-- The `isinstance(tool_schema, str)` test. -/
def schemaIsText : Option ToolSchema → Bool
  | some (.text _) => true
  | _ => false

/-- The `tool_context_parts` list built by `scan_tool_call`. -/
def toolContextParts (tool_name : String) (tool_args : List (String × String))
    (tool_schema : Option ToolSchema) : List String :=
  ["Tool: " ++ tool_name]
    ++ (if schemaTruthy tool_schema then
          [(if schemaIsText tool_schema then "Description: " else "Schema: ")
            ++ schemaRendered tool_schema]
        else [])
    ++ ["Arguments: " ++ pyDictStr tool_args]

/-- The `tool_context = "\n".join(tool_context_parts)` string. -/
def toolContext (tool_name : String) (tool_args : List (String × String))
    (tool_schema : Option ToolSchema) : String :=
  joinLines (toolContextParts tool_name tool_args tool_schema)

/-- Mirror of the `ToolCallScanResult` dataclass. -/
structure ToolCallScanResult where
  is_safe : Bool
  tool_name : String
  user_intent_safe : Bool
  tool_args_safe : Bool
  combined_score : ℚ
  user_message_verdict : ScanVerdict
  tool_context_verdict : Option ScanVerdict
  recommendation : String
deriving DecidableEq

/-- Round-half-to-even to the nearest integer, as the Python `round` behaves on
exactly representable ties. -/
def nearestHalfEven (x : ℚ) : ℤ :=
  if x - ⌊x⌋ < 1 / 2 then ⌊x⌋
  else if 1 / 2 < x - ⌊x⌋ then ⌊x⌋ + 1
  else if ⌊x⌋ % 2 = 0 then ⌊x⌋ else ⌊x⌋ + 1

/-- The Python `round(x, 1)`. -/
def round1 (x : ℚ) : ℚ :=
  (nearestHalfEven (x * 10) : ℚ) / 10

/-- Mirror of `scan_tool_call`.  The two probes go through `scan_text`, which
already converts a collaborator exception into a fail-closed verdict, so the
`except` branch of the source is unreachable for collaborator exceptions and
the normal path below is the whole behavior. -/
def scan_tool_call (user_message : String) (tool_name : String)
    (tool_args : List (String × String)) (client : Client)
    (tool_schema : Option ToolSchema) (policy : Option Policy)
    (meta : Option MetaDict) :
    ToolCallScanResult × List (String × String) :=
  let threshold := effThreshold policy
  let tool_context := toolContext tool_name tool_args tool_schema
  let userScan := scan_text user_message client "input" (some ⟨some threshold, none⟩)
    (some (dictInsert (meta.getD []) "component" "tool_call_user_intent"))
  let ctxScan := scan_text tool_context client "input" (some ⟨some threshold, none⟩)
    (some (dictInsert (dictInsert (meta.getD []) "tool" tool_name) "component" "tool_context"))
  let user_verdict := userScan.1
  let tool_context_verdict := ctxScan.1
  let combined_score := round1 ((user_verdict.score + tool_context_verdict.score) / 2)
  let is_safe := user_verdict.is_safe && tool_context_verdict.is_safe
  let recommendation :=
    if is_safe then "proceed"
    else if 17 / 20 ≤ combined_score then "block"
    else if 1 / 2 ≤ combined_score then "review"
    else "proceed"
  (⟨is_safe, tool_name, user_verdict.is_safe, tool_context_verdict.is_safe,
    combined_score, user_verdict, some tool_context_verdict, recommendation⟩,
   userScan.2 ++ ctxScan.2)

/-! ## Claim theorems -/

/-- Claim C1: for every non-empty text (and, likewise, every non-empty message
list) and every successful collaborator response whose analysis carries a
`prompt_injection` score finding with score `s`, the verdict returned by
`scan_text` (resp. `scan_messages`) has `is_safe` exactly equal to the boolean
test `s < threshold`, where the threshold is the policy one and `0.65` when
no policy is given; in particular at `s = threshold` the verdict is unsafe. -/
theorem C1_is_safe_iff_score_below_threshold
    (client : Client) (scan_type : String) (policy : Option Policy)
    (meta : Option MetaDict) (resp : AnalyzeResponse) (item : AnalysisItem) (s : ℚ)
    (hsucc : resp.success = true)
    (hfind : resp.analysis.find? isPIScore = some item)
    (hres : item.result = some s) :
    (∀ text, text ≠ "" → client text scan_type = some resp →
      (scan_text text client scan_type policy meta).1.is_safe
          = decide (s < effThreshold policy) ∧
      (scan_text text client scan_type policy meta).1.score = s) ∧
    (∀ messages, messages ≠ [] → client (renderMessages messages) scan_type = some resp →
      (scan_messages messages client scan_type policy meta).1.is_safe
          = decide (s < effThreshold policy) ∧
      (scan_messages messages client scan_type policy meta).1.score = s) := by
  constructor
  · intro text htext hclient
    simp [scan_text, htext, hclient, hsucc, piScore, hfind, hres]
  · intro messages hmsg hclient
    simp [scan_messages, hmsg, hclient, hsucc, piScore, hfind, hres]

/-- Witness for C1 at the boundary input: a response whose score equals the
default threshold 0.65 yields an unsafe verdict. -/
theorem C1_boundary_witness :
    (scan_text "hello"
      (fun _ _ => some ⟨true, some "t",
        [⟨some "score", some "prompt_injection", some (13 / 20)⟩]⟩)
      "input" none none).1.is_safe = false := by
  have h := (C1_is_safe_iff_score_below_threshold
      (fun _ _ => some ⟨true, some "t",
        [⟨some "score", some "prompt_injection", some (13 / 20)⟩]⟩)
      "input" none none
      ⟨true, some "t", [⟨some "score", some "prompt_injection", some (13 / 20)⟩]⟩
      ⟨some "score", some "prompt_injection", some (13 / 20)⟩ (13 / 20)
      rfl rfl rfl).1 "hello" (by decide) rfl
  rw [h.1, effThreshold]
  norm_num

/-- Claim C2: empty text, an empty message list and an empty chunk list each
short-circuit to a safe result with score 0 (for RAG: `is_safe` true with zero
chunk counts), the corresponding sentinel tag, and an empty collaborator call
log, i.e. the analyze operation is never invoked. -/
theorem C2_empty_inputs_short_circuit (client : Client) (scan_type : String)
    (policy : Option Policy) (meta : Option MetaDict) (query : String) :
    scan_text "" client scan_type policy meta
        = (⟨true, 0, scan_type, "empty_input", meta.getD [], []⟩, []) ∧
    scan_messages [] client scan_type policy meta
        = (⟨true, 0, scan_type, "empty_messages", meta.getD [], []⟩, []) ∧
    scan_rag_chunks query [] client policy meta
        = (⟨query, 0, [], [], true, []⟩, []) := by
  refine ⟨?_, ?_, ?_⟩ <;> simp [scan_text, scan_messages, scan_rag_chunks]

/-- Claim C3: for non-empty text, a collaborator response with `success=False`
makes `scan_text` fail closed: `is_safe=False`, score 1, tag the
collaborator-provided one with default `"unknown"` — independently of the text. -/
theorem C3_collaborator_failure_fails_closed (text : String) (client : Client)
    (scan_type : String) (policy : Option Policy) (meta : Option MetaDict)
    (resp : AnalyzeResponse) (htext : text ≠ "")
    (hclient : client text scan_type = some resp) (hfail : resp.success = false) :
    (scan_text text client scan_type policy meta).1
        = ⟨false, 1, scan_type, resp.tag.getD "unknown", meta.getD [], []⟩ := by
  simp [scan_text, htext, hclient, hfail]

/-- Witness for C3: a failed response with no tag field yields the
`"unknown"`-tagged fail-closed verdict. -/
theorem C3_witness :
    (scan_text "hi" (fun _ _ => some ⟨false, none, []⟩) "input" none none).1
        = ⟨false, 1, "input", "unknown", [], []⟩ := by
  simpa using C3_collaborator_failure_fails_closed "hi"
    (fun _ _ => some ⟨false, none, []⟩) "input" none none
    ⟨false, none, []⟩ (by decide) rfl rfl

/-- Claim C4: on a successful response with no finding of type `"score"` and
name `"prompt_injection"`, `scan_text` returns score 0 (hence a safe verdict
for any positive threshold); when such findings exist, the score is the
`result` of the first one in the analysis list. -/
theorem C4_missing_finding_fails_open (client : Client) (scan_type : String)
    (policy : Option Policy) (meta : Option MetaDict) (text : String)
    (resp : AnalyzeResponse) (htext : text ≠ "")
    (hclient : client text scan_type = some resp) (hsucc : resp.success = true) :
    (resp.analysis.find? isPIScore = none →
      (scan_text text client scan_type policy meta).1.score = 0 ∧
      (0 < effThreshold policy →
        (scan_text text client scan_type policy meta).1.is_safe = true)) ∧
    (∀ item s, resp.analysis.find? isPIScore = some item → item.result = some s →
      (scan_text text client scan_type policy meta).1.score = s) := by
  constructor
  · intro hnone
    constructor
    · simp [scan_text, htext, hclient, hsucc, piScore, hnone]
    · intro hpos
      simp [scan_text, htext, hclient, hsucc, piScore, hnone, hpos]
  · intro item s hfind hres
    simp [scan_text, htext, hclient, hsucc, piScore, hfind, hres]

/-- Witness for C4: a successful response whose only findings are not
`prompt_injection` scores yields score 0 and a safe verdict under the default
threshold, and a response with two `prompt_injection` score findings yields the
the score of the first one. -/
theorem C4_witness :
    (scan_text "hi"
      (fun _ _ => some ⟨true, some "t", [⟨some "other", some "x", some (1 / 2)⟩]⟩)
      "input" none none).1.score = 0 ∧
    (scan_text "hi"
      (fun _ _ => some ⟨true, some "t", [⟨some "other", some "x", some (1 / 2)⟩]⟩)
      "input" none none).1.is_safe = true ∧
    (scan_text "hi"
      (fun _ _ => some ⟨true, some "t",
        [⟨some "score", some "prompt_injection", some (9 / 10)⟩,
         ⟨some "score", some "prompt_injection", some (1 / 10)⟩]⟩)
      "input" none none).1.score = 9 / 10 := by
  have h1 := C4_missing_finding_fails_open
    (fun _ _ => some ⟨true, some "t", [⟨some "other", some "x", some (1 / 2)⟩]⟩)
    "input" none none "hi"
    ⟨true, some "t", [⟨some "other", some "x", some (1 / 2)⟩]⟩
    (by decide) rfl rfl
  have h2 := C4_missing_finding_fails_open
    (fun _ _ => some ⟨true, some "t",
      [⟨some "score", some "prompt_injection", some (9 / 10)⟩,
       ⟨some "score", some "prompt_injection", some (1 / 10)⟩]⟩)
    "input" none none "hi"
    ⟨true, some "t",
      [⟨some "score", some "prompt_injection", some (9 / 10)⟩,
       ⟨some "score", some "prompt_injection", some (1 / 10)⟩]⟩
    (by decide) rfl rfl
  have hfind : (⟨true, some "t", [⟨some "other", some "x", some (1 / 2)⟩]⟩ :
      AnalyzeResponse).analysis.find? isPIScore = none := by
    simp [isPIScore]
  refine ⟨(h1.1 hfind).1, (h1.1 hfind).2 (by rw [effThreshold]; norm_num), ?_⟩
  exact h2.2 ⟨some "score", some "prompt_injection", some (9 / 10)⟩ (9 / 10)
    (by simp [isPIScore]) rfl

/-- A nonempty head line makes the newline-join nonempty. -/
theorem joinLines_ne_empty_of_head (x : String) (rest : List String)
    (hx : x.length ≠ 0) : joinLines (x :: rest) ≠ "" := by
  cases rest with
  | nil =>
      intro h
      apply hx
      rw [joinLines] at h
      simpa using congrArg String.length h
  | cons y ys =>
      intro h
      apply hx
      rw [joinLines] at h
      have hl := congrArg String.length h
      simp [String.length_append] at hl
      omega

/-- The tool-context string always starts with a `Tool:` line, hence is never
empty and the second probe of `scan_tool_call` never short-circuits. -/
theorem toolContext_ne_empty (tool_name : String) (tool_args : List (String × String))
    (tool_schema : Option ToolSchema) :
    toolContext tool_name tool_args tool_schema ≠ "" := by
  have h6 : ("Tool: " ++ tool_name).length ≠ 0 := by
    have : ("Tool: " : String).length = 6 := rfl
    simp [String.length_append, this]
  by_cases hs : schemaTruthy tool_schema = true <;>
    simp [toolContext, toolContextParts, hs] <;>
    exact joinLines_ne_empty_of_head _ _ h6

/-- Client for the C5 counterexample: the analyze call raises exactly on the
user message `"attack"` and succeeds with an empty analysis on anything else. -/
def C5client : Client :=
  fun t _ => if t = "attack" then none else some ⟨true, some "t", []⟩

/-- Counterexample to claim C5: when the collaborator raises during only the
first probe (the user-intent one) and the second probe succeeds with score 0,
`scan_tool_call` does not return the claimed block verdict: the exception is
absorbed inside `scan_text` as a score-1 error verdict for that probe alone,
so the combined score is 0.5, the recommendation is `"review"` and
`tool_args_safe` stays true. -/
theorem C5_counterexample :
    (scan_tool_call "attack" "calc" [] C5client none none none).1.recommendation
        = "review" ∧
    (scan_tool_call "attack" "calc" [] C5client none none none).1.combined_score
        = 1 / 2 ∧
    (scan_tool_call "attack" "calc" [] C5client none none none).1.tool_args_safe
        = true ∧
    ¬ ((scan_tool_call "attack" "calc" [] C5client none none none).1.recommendation
          = "block" ∧
       (scan_tool_call "attack" "calc" [] C5client none none none).1.combined_score
          = 1 ∧
       (scan_tool_call "attack" "calc" [] C5client none none none).1.user_intent_safe
          = false ∧
       (scan_tool_call "attack" "calc" [] C5client none none none).1.tool_args_safe
          = false) := by
  have hround : round1 ((1 + 0) / 2) = 1 / 2 := by
    rw [round1, nearestHalfEven]; norm_num
  have hmain : (scan_tool_call "attack" "calc" [] C5client none none
        none).1.recommendation = "review" ∧
      (scan_tool_call "attack" "calc" [] C5client none none none).1.combined_score
        = 1 / 2 ∧
      (scan_tool_call "attack" "calc" [] C5client none none none).1.tool_args_safe
        = true := by
    refine ⟨?_, ?_, ?_⟩ <;>
      simp [scan_tool_call, scan_text, C5client, toolContext, toolContextParts,
        joinLines, pyDictStr, pyDictEntries, schemaTruthy, effThreshold, piScore,
        isPIScore, round1, nearestHalfEven] <;>
      norm_num
  refine ⟨hmain.1, hmain.2.1, hmain.2.2, ?_⟩
  rintro ⟨hb, -, -, -⟩
  rw [hmain.1] at hb
  exact absurd hb (by decide)

/-- Claim C5, amended: a collaborator exception during a probe is caught
inside `scan_text` and turned into a fail-closed error verdict with score 1 for
that probe, after which `scan_tool_call` combines the two probe verdicts
normally; the claimed outcome — unsafe, recommendation `"block"`, combined
score 1, both probe flags false — holds when the collaborator raises during
both probes, which is the only way the analyze exception can drive the whole
result. -/
theorem C5_both_probes_exception (user_message tool_name : String)
    (tool_args : List (String × String)) (client : Client)
    (tool_schema : Option ToolSchema) (policy : Option Policy) (meta : Option MetaDict)
    (hum : user_message ≠ "")
    (h1 : client user_message "input" = none)
    (h2 : client (toolContext tool_name tool_args tool_schema) "input" = none) :
    (scan_tool_call user_message tool_name tool_args client tool_schema policy
        meta).1.is_safe = false ∧
    (scan_tool_call user_message tool_name tool_args client tool_schema policy
        meta).1.recommendation = "block" ∧
    (scan_tool_call user_message tool_name tool_args client tool_schema policy
        meta).1.combined_score = 1 ∧
    (scan_tool_call user_message tool_name tool_args client tool_schema policy
        meta).1.user_intent_safe = false ∧
    (scan_tool_call user_message tool_name tool_args client tool_schema policy
        meta).1.tool_args_safe = false := by
  have hctxne := toolContext_ne_empty tool_name tool_args tool_schema
  have hround : round1 ((1 + 1) / 2) = 1 := by
    rw [round1, nearestHalfEven]; norm_num
  have hround1 : round1 1 = 1 := by
    rw [round1, nearestHalfEven]; norm_num
  refine ⟨?_, ?_, ?_, ?_, ?_⟩ <;>
    simp [scan_tool_call, scan_text, hum, hctxne, h1, h2, hround, hround1] <;>
    norm_num

/-- Client for the C5 witness: every analyze call raises. -/
def C5xclient : Client := fun _ _ => none

/-- Witness for the amended C5 at a concrete input where both probes raise. -/
theorem C5_witness :
    (scan_tool_call "boom" "t" [] C5xclient none none none).1.recommendation
        = "block" ∧
    (scan_tool_call "boom" "t" [] C5xclient none none none).1.combined_score = 1 := by
  have h := C5_both_probes_exception "boom" "t" [] C5xclient none none none
    (by decide) rfl rfl
  exact ⟨h.2.1, h.2.2.1⟩

/-- Claim C6: for the verdict pair produced inside `scan_tool_call`, a safe
conjunction yields recommendation `"proceed"`; otherwise the (already rounded)
combined score maps to `"block"` at or above 0.85, `"review"` in [0.50, 0.85),
and `"proceed"` below 0.50 even though `is_safe` is false. -/
theorem C6_recommendation_mapping (user_message tool_name : String)
    (tool_args : List (String × String)) (client : Client)
    (tool_schema : Option ToolSchema) (policy : Option Policy) (meta : Option MetaDict)
    (r : ToolCallScanResult)
    (hr : r = (scan_tool_call user_message tool_name tool_args client tool_schema
      policy meta).1) :
    (r.is_safe = true → r.recommendation = "proceed") ∧
    (r.is_safe = false →
      ((17 / 20 ≤ r.combined_score → r.recommendation = "block") ∧
       (1 / 2 ≤ r.combined_score → r.combined_score < 17 / 20 →
          r.recommendation = "review") ∧
       (r.combined_score < 1 / 2 → r.recommendation = "proceed"))) := by
  subst hr
  simp only [scan_tool_call]
  constructor
  · intro h
    simp [h]
  · intro h
    simp only [h]
    refine ⟨?_, ?_, ?_⟩
    · intro hc
      simp [if_pos hc]
    · intro hc1 hc2
      rw [if_neg (by simp), if_neg (not_le.mpr hc2), if_pos hc1]
    · intro hc
      rw [if_neg (by simp), if_neg (not_le.mpr (hc.trans (by norm_num))),
        if_neg (not_le.mpr hc)]

/-- Client for the C6 witness: every probe scores 0.9. -/
def C6client : Client :=
  fun _ _ => some ⟨true, some "t",
    [⟨some "score", some "prompt_injection", some (9 / 10)⟩]⟩

/-- Witness for C6: two probe scores of 0.9 give an unsafe result with a
combined score of 0.9 and recommendation `"block"`. -/
theorem C6_witness :
    (scan_tool_call "u" "t" [] C6client none none none).1.recommendation
        = "block" := by
  have hsafe : (scan_tool_call "u" "t" [] C6client none none none).1.is_safe
      = false := by
    simp [scan_tool_call, scan_text, C6client, toolContext, toolContextParts,
      joinLines, pyDictStr, pyDictEntries, schemaTruthy, effThreshold, piScore,
      isPIScore]
    norm_num
  have hcomb : (scan_tool_call "u" "t" [] C6client none none none).1.combined_score
      = 9 / 10 := by
    simp [scan_tool_call, scan_text, C6client, toolContext, toolContextParts,
      joinLines, pyDictStr, pyDictEntries, schemaTruthy, effThreshold, piScore,
      isPIScore, round1, nearestHalfEven]
  exact ((C6_recommendation_mapping "u" "t" [] C6client none none none _ rfl).2
    hsafe).1 (by rw [hcomb]; norm_num)

/-- Client for C7: probe scores 0.4 (user message `"u"`) and 0.6 (tool context). -/
def C7clientA : Client := fun t _ =>
  if t = "u" then
    some ⟨true, some "t", [⟨some "score", some "prompt_injection", some (2 / 5)⟩]⟩
  else
    some ⟨true, some "t", [⟨some "score", some "prompt_injection", some (3 / 5)⟩]⟩

/-- Client for C7: probe scores 0.7 (user message `"u"`) and 0.8 (tool context). -/
def C7clientB : Client := fun t _ =>
  if t = "u" then
    some ⟨true, some "t", [⟨some "score", some "prompt_injection", some (7 / 10)⟩]⟩
  else
    some ⟨true, some "t", [⟨some "score", some "prompt_injection", some (4 / 5)⟩]⟩

/-- Counterexample to claim C7: with probe scores 0.7 and 0.8 the combined
score is `round((0.7 + 0.8) / 2, 1) = round(0.75, 1) = 0.8`, not the 0.75 the
claim states (a rounding to one decimal place cannot return 0.75). -/
theorem C7_counterexample :
    (scan_tool_call "u" "t" [] C7clientB none none none).1.user_message_verdict.score
        = 7 / 10 ∧
    (scan_tool_call "u" "t" [] C7clientB none none
        none).1.tool_context_verdict.map ScanVerdict.score = some (4 / 5) ∧
    (scan_tool_call "u" "t" [] C7clientB none none none).1.combined_score
        ≠ 3 / 4 := by
  refine ⟨?_, ?_, ?_⟩ <;>
    simp [scan_tool_call, scan_text, C7clientB, toolContext, toolContextParts,
      joinLines, pyDictStr, pyDictEntries, schemaTruthy, effThreshold, piScore,
      isPIScore, round1, nearestHalfEven] <;>
    norm_num [Int.fract]

/-- Claim C7, amended: the combined score of `scan_tool_call` is the arithmetic
mean of the two probe scores rounded half-to-even to one decimal place; scores
0.4 and 0.6 give combined 0.5, and scores 0.7 and 0.8 give combined 0.8 (not
0.75 as the claim and the repository test `test_scan_tool_call_medium_risk_recommendation`
state). -/
theorem C7_combined_is_rounded_mean (user_message tool_name : String)
    (tool_args : List (String × String)) (client : Client)
    (tool_schema : Option ToolSchema) (policy : Option Policy) (meta : Option MetaDict)
    (tv : ScanVerdict)
    (htv : (scan_tool_call user_message tool_name tool_args client tool_schema
      policy meta).1.tool_context_verdict = some tv) :
    (scan_tool_call user_message tool_name tool_args client tool_schema
        policy meta).1.combined_score
      = round1 (((scan_tool_call user_message tool_name tool_args client tool_schema
          policy meta).1.user_message_verdict.score + tv.score) / 2) ∧
    (scan_tool_call "u" "t" [] C7clientA none none none).1.combined_score = 1 / 2 ∧
    (scan_tool_call "u" "t" [] C7clientB none none none).1.combined_score = 4 / 5 := by
  refine ⟨?_, ?_, ?_⟩
  · simp only [scan_tool_call, Option.some.injEq] at htv
    subst htv
    rfl
  · simp [scan_tool_call, scan_text, C7clientA, toolContext, toolContextParts,
      joinLines, pyDictStr, pyDictEntries, schemaTruthy, effThreshold, piScore,
      isPIScore, round1, nearestHalfEven]
    norm_num
  · simp [scan_tool_call, scan_text, C7clientB, toolContext, toolContextParts,
      joinLines, pyDictStr, pyDictEntries, schemaTruthy, effThreshold, piScore,
      isPIScore, round1, nearestHalfEven]
    norm_num [Int.fract]

/-- Witness for the amended C7: probe scores 0.4 and 0.6 combine to 0.5. -/
theorem C7_witness :
    (scan_tool_call "u" "t" [] C7clientA none none none).1.combined_score
        = 1 / 2 := by
  exact (C7_combined_is_rounded_mean "u" "t" [] C7clientA none none none _ rfl).2.1

/-- The safe and flagged accumulators of the chunk loop partition its input:
their lengths always sum to the number of chunks handed to the loop. -/
theorem scanChunksLoop_safe_flagged_length (client : Client) (thr : ℚ) (m : MetaDict)
    (l : List Chunk) : ∀ i : Nat,
    (scanChunksLoop client thr m i l).1.length
      + (scanChunksLoop client thr m i l).2.1.length = l.length := by
  induction l with
  | nil => intro i; simp [scanChunksLoop]
  | cons chunk rest ih =>
      intro i
      have h := ih (i + 1)
      by_cases hs : (scan_text (chunkText chunk) client "input" (some ⟨some thr, none⟩)
          (some (dictInsert m "chunk_index" (toString i)))).1.is_safe = true
      · simp [scanChunksLoop, hs]
        omega
      · simp [scanChunksLoop, hs]
        omega

/-- Closed forms of the three result components of the chunk loop: the safe
and flagged lists are complementary filters of the enumerated input, and the
verdict list is the per-chunk scan in input order. -/
theorem scanChunksLoop_parts (client : Client) (thr : ℚ) (m : MetaDict)
    (l : List Chunk) : ∀ i : Nat,
    (scanChunksLoop client thr m i l).1 = (l.enumFrom i).filterMap (fun p =>
        let v := (scan_text (chunkText p.2) client "input" (some ⟨some thr, none⟩)
          (some (dictInsert m "chunk_index" (toString p.1)))).1
        if v.is_safe then some ⟨chunkText p.2, p.1, v.score, p.2, none⟩ else none) ∧
    (scanChunksLoop client thr m i l).2.1 = (l.enumFrom i).filterMap (fun p =>
        let v := (scan_text (chunkText p.2) client "input" (some ⟨some thr, none⟩)
          (some (dictInsert m "chunk_index" (toString p.1)))).1
        if v.is_safe then none
        else some ⟨chunkText p.2, p.1, v.score, p.2, some "flagged"⟩) ∧
    (scanChunksLoop client thr m i l).2.2.1 = (l.enumFrom i).map (fun p =>
        (scan_text (chunkText p.2) client "input" (some ⟨some thr, none⟩)
          (some (dictInsert m "chunk_index" (toString p.1)))).1) := by
  induction l with
  | nil => intro i; simp [scanChunksLoop]
  | cons chunk rest ih =>
      intro i
      have h := ih (i + 1)
      have henum : List.enumFrom i (chunk :: rest)
          = (i, chunk) :: List.enumFrom (i + 1) rest := rfl
      by_cases hs : (scan_text (chunkText chunk) client "input" (some ⟨some thr, none⟩)
          (some (dictInsert m "chunk_index" (toString i)))).1.is_safe = true
      · refine ⟨?_, ?_, ?_⟩ <;>
          simp [scanChunksLoop, hs, henum, h.1, h.2.1, h.2.2]
      · refine ⟨?_, ?_, ?_⟩ <;>
          simp [scanChunksLoop, hs, henum, h.1, h.2.1, h.2.2]

/-- Claim C8: on a non-empty chunk list of length `n` and a scan limit `k`
(default `n`), the safe and flagged chunk lists of `scan_rag_chunks` partition
the first `min n k` chunks (their lengths sum to `min n k`, and they are the
complementary filters of exactly those chunks, so chunks past the limit appear
nowhere), `total_chunks` is `n`, and `verdict_per_chunk` is the query verdict
followed by the `min n k` chunk verdicts in original order. -/
theorem C8_rag_partition_invariant (query : String) (chunks : List Chunk)
    (client : Client) (policy : Option Policy) (meta : Option MetaDict)
    (k : Nat) (thr : ℚ)
    (hchunks : chunks ≠ [])
    (hk : (policy.getD ⟨none, none⟩).max_chunks_to_scan.getD chunks.length = k)
    (hthr : (policy.getD ⟨none, none⟩).threshold.getD (13 / 20) = thr)
    (r : RagScanResult)
    (hr : r = (scan_rag_chunks query chunks client policy meta).1) :
    r.safe_chunks.length + r.flagged_chunks.length = min chunks.length k ∧
    r.total_chunks = chunks.length ∧
    r.verdict_per_chunk
      = (scan_text query client "input" (some ⟨some thr, none⟩) none).1
          :: (chunks.take k).enum.map (fun p =>
            (scan_text (chunkText p.2) client "input" (some ⟨some thr, none⟩)
              (some (dictInsert (meta.getD []) "chunk_index" (toString p.1)))).1) ∧
    r.safe_chunks = (chunks.take k).enum.filterMap (fun p =>
        let v := (scan_text (chunkText p.2) client "input" (some ⟨some thr, none⟩)
          (some (dictInsert (meta.getD []) "chunk_index" (toString p.1)))).1
        if v.is_safe then some ⟨chunkText p.2, p.1, v.score, p.2, none⟩ else none) ∧
    r.flagged_chunks = (chunks.take k).enum.filterMap (fun p =>
        let v := (scan_text (chunkText p.2) client "input" (some ⟨some thr, none⟩)
          (some (dictInsert (meta.getD []) "chunk_index" (toString p.1)))).1
        if v.is_safe then none
        else some ⟨chunkText p.2, p.1, v.score, p.2, some "flagged"⟩) := by
  subst hr hk hthr
  have hlen := scanChunksLoop_safe_flagged_length client
    ((policy.getD ⟨none, none⟩).threshold.getD (13 / 20)) (meta.getD [])
    (chunks.take ((policy.getD ⟨none, none⟩).max_chunks_to_scan.getD chunks.length)) 0
  have hparts := scanChunksLoop_parts client
    ((policy.getD ⟨none, none⟩).threshold.getD (13 / 20)) (meta.getD [])
    (chunks.take ((policy.getD ⟨none, none⟩).max_chunks_to_scan.getD chunks.length)) 0
  have henum : ∀ l : List Chunk, l.enum = l.enumFrom 0 := fun _ => rfl
  refine ⟨?_, ?_, ?_, ?_, ?_⟩
  · simp only [scan_rag_chunks, if_neg hchunks]
    rw [hlen]
    simp [List.length_take, Nat.min_comm]
  · simp [scan_rag_chunks, if_neg hchunks]
  · simp only [scan_rag_chunks, if_neg hchunks]
    rw [henum, hparts.2.2]
  · simp only [scan_rag_chunks, if_neg hchunks]
    rw [henum]
    exact hparts.1
  · simp only [scan_rag_chunks, if_neg hchunks]
    rw [henum]
    exact hparts.2.1

/-- Client for the C8 witness: the chunk text `"b"` scores 0.9 (flagged),
everything else scores 0.1 (safe). -/
def C8client : Client := fun t _ =>
  if t = "b" then
    some ⟨true, some "g", [⟨some "score", some "prompt_injection", some (9 / 10)⟩]⟩
  else
    some ⟨true, some "g", [⟨some "score", some "prompt_injection", some (1 / 10)⟩]⟩

/-- Witness for C8: three chunks with a scan limit of two give a safe/flagged
partition of size two and report three total chunks. -/
theorem C8_witness :
    (scan_rag_chunks "q" [Chunk.str "a", Chunk.str "b", Chunk.str "c"] C8client
      (some ⟨none, some 2⟩) none).1.safe_chunks.length
      + (scan_rag_chunks "q" [Chunk.str "a", Chunk.str "b", Chunk.str "c"] C8client
        (some ⟨none, some 2⟩) none).1.flagged_chunks.length = 2 ∧
    (scan_rag_chunks "q" [Chunk.str "a", Chunk.str "b", Chunk.str "c"] C8client
      (some ⟨none, some 2⟩) none).1.total_chunks = 3 := by
  have h := C8_rag_partition_invariant "q" [Chunk.str "a", Chunk.str "b", Chunk.str "c"]
    C8client (some ⟨none, some 2⟩) none 2 (13 / 20) (by simp) rfl rfl _ rfl
  exact ⟨h.1.trans (by norm_num), h.2.1⟩

/-- Counterexample to claim C9: a text schema that is the empty string is
falsy in Python, so the `Description:` line is skipped and the tool context
has two lines, not the three the claim states for every text schema. -/
theorem C9_counterexample :
    toolContext "t" [] (some (ToolSchema.text "")) = "Tool: t\nArguments: \x7b\x7d" ∧
    toolContext "t" [] (some (ToolSchema.text ""))
      ≠ joinLines ["Tool: t", "Description: ", "Arguments: \x7b\x7d"] := by
  constructor
  · rfl
  · decide

/-- Claim C9, amended: the tool-context string scanned by the second probe of
`scan_tool_call` is the newline-join of a `Tool:` line, then — only when the
schema is truthy (a non-empty string or a non-empty structured schema) — a
`Description:` line for a text schema or a `Schema:` line for a structured
one, then an `Arguments:` line; when the schema is absent or falsy the middle
line is omitted and only two lines remain. -/
theorem C9_tool_context_structure (tool_name : String)
    (tool_args : List (String × String)) (tool_schema : Option ToolSchema)
    (user_message : String) (client : Client) (policy : Option Policy)
    (meta : Option MetaDict) :
    (∀ s, tool_schema = some (ToolSchema.text s) → s ≠ "" →
      toolContext tool_name tool_args tool_schema
        = joinLines ["Tool: " ++ tool_name, "Description: " ++ s,
            "Arguments: " ++ pyDictStr tool_args]) ∧
    (∀ fields, tool_schema = some (ToolSchema.structured fields) → fields ≠ [] →
      toolContext tool_name tool_args tool_schema
        = joinLines ["Tool: " ++ tool_name, "Schema: " ++ pyDictStr fields,
            "Arguments: " ++ pyDictStr tool_args]) ∧
    (schemaTruthy tool_schema = false →
      toolContext tool_name tool_args tool_schema
        = joinLines ["Tool: " ++ tool_name, "Arguments: " ++ pyDictStr tool_args]) ∧
    (scan_tool_call user_message tool_name tool_args client tool_schema policy
        meta).1.tool_context_verdict
      = some (scan_text (toolContext tool_name tool_args tool_schema) client "input"
          (some ⟨some (effThreshold policy), none⟩)
          (some (dictInsert (dictInsert (meta.getD []) "tool" tool_name)
            "component" "tool_context"))).1 := by
  refine ⟨?_, ?_, ?_, ?_⟩
  · rintro s rfl hs
    simp [toolContext, toolContextParts, schemaTruthy, schemaIsText, schemaRendered, hs]
  · rintro fields rfl hf
    simp [toolContext, toolContextParts, schemaTruthy, schemaIsText, schemaRendered, hf]
  · intro hfalse
    simp [toolContext, toolContextParts, hfalse]
  · rfl

/-- Witness for the amended C9: a non-empty text schema gives the three-line
context in fixed order. -/
theorem C9_witness :
    toolContext "my_tool" [("arg1", "value1")] (some (ToolSchema.text "does X"))
      = "Tool: my_tool\nDescription: does X\nArguments: \x7b\x27arg1\x27: \x27value1\x27\x7d" := by
  have h := (C9_tool_context_structure "my_tool" [("arg1", "value1")]
    (some (ToolSchema.text "does X")) "u" (fun _ _ => none) none none).1
    "does X" rfl (by decide)
  rw [h]
  rfl

/-- Claim C10: on a successful response with no `tag` field, `scan_text` and
`scan_messages` set the verdict tag to the empty string, while the `"unknown"`
default applies on the failure path — and the two defaults differ, so the two
paths are observably different. -/
theorem C10_tag_defaults (client : Client) (scan_type : String)
    (policy : Option Policy) (meta : Option MetaDict) :
    (∀ text resp s, text ≠ "" → client text scan_type = some resp →
      resp.success = true → resp.tag = none → piScore resp.analysis = some s →
      (scan_text text client scan_type policy meta).1.tag = "") ∧
    (∀ messages resp s, messages ≠ [] →
      client (renderMessages messages) scan_type = some resp →
      resp.success = true → resp.tag = none → piScore resp.analysis = some s →
      (scan_messages messages client scan_type policy meta).1.tag = "") ∧
    (∀ text resp, text ≠ "" → client text scan_type = some resp →
      resp.success = false → resp.tag = none →
      (scan_text text client scan_type policy meta).1.tag = "unknown") ∧
    ("" : String) ≠ "unknown" := by
  refine ⟨?_, ?_, ?_, by decide⟩
  · intro text resp s htext hclient hsucc htag hscore
    simp [scan_text, htext, hclient, hsucc, htag, hscore]
  · intro messages resp s hmsg hclient hsucc htag hscore
    simp [scan_messages, hmsg, hclient, hsucc, htag, hscore]
  · intro text resp htext hclient hfail htag
    simp [scan_text, htext, hclient, hfail, htag]

/-- Witness for C10: the same missing tag yields `""` on a success response
and `"unknown"` on a failure response. -/
theorem C10_witness :
    (scan_text "hi" (fun _ _ => some ⟨true, none, []⟩) "input" none none).1.tag
        = "" ∧
    (scan_text "hi" (fun _ _ => some ⟨false, none, []⟩) "input" none none).1.tag
        = "unknown" := by
  refine ⟨?_, ?_⟩
  · exact (C10_tag_defaults (fun _ _ => some ⟨true, none, []⟩) "input" none none).1
      "hi" ⟨true, none, []⟩ 0 (by decide) rfl rfl rfl rfl
  · exact (C10_tag_defaults (fun _ _ => some ⟨false, none, []⟩) "input" none
      none).2.2.1 "hi" ⟨false, none, []⟩ (by decide) rfl rfl rfl

end SonnyLabs
